import Mathlib

/-!
Verification of the sandbox lifecycle orchestrator in `src/lib/k8s/sandbox-manager.ts`.

Shallow embedding conventions:
* results of Kubernetes API round-trips are passed in explicitly as `Except K8sError _`
  values, so every orchestrator method becomes a pure function of the responses it saw;
* JavaScript records (`Record<string, string>`) are modelled as insertion-ordered
  association lists with unique keys, with `recGet`/`recSet` giving the object
  read/write semantics (overwrite keeps position, a fresh key is appended);
* a thrown exception is an `Except.error` (or the `threw` outcome), a caught-and-mapped
  failure is reflected in the returned value, exactly as in the source.
-/

namespace Fulling

/-- Error shape thrown by the Kubernetes client: the source probes
`error.response.statusCode`, so an error carries an optional `response` object
with an optional numeric status code. -/
structure K8sResponse where
  statusCode : Option Nat
deriving DecidableEq, Repr

/-- A caught error value of unknown shape, as discriminated by the source. -/
structure K8sError where
  response : Option K8sResponse
deriving DecidableEq, Repr

/-- Modelled from the spec: `isK8sNotFound` is imported from `./k8s-error-utils`,
a file absent from the sources; per the spec's error taxonomy (§7, §4.4) a query
failure that is a "not found" (HTTP 404) response is so classified. -/
def isK8sNotFound (e : K8sError) : Bool :=
  match e.response with
  | some r => r.statusCode == some 404
  | none => false

/-- Sandbox running status (`SandboxStatus` union type in the source). -/
inductive SandboxStatus where
  | STARTING
  | RUNNING
  | STOPPING
  | STOPPED
  | TERMINATED
  | ERROR
deriving DecidableEq, Repr

/-- `V1EnvVar`: `name` is a required string, `value` is optional. -/
structure EnvVar where
  name : String
  value : Option String
deriving DecidableEq, Repr

/-- `V1Container`, restricted to the fields the orchestrator reads. -/
structure Container where
  name : String
  env : Option (List EnvVar)
deriving DecidableEq, Repr

/-- `V1PodSpec`, restricted to the container list. -/
structure PodSpec where
  containers : List Container
deriving DecidableEq, Repr

/-- `V1PodTemplateSpec`: the pod spec is optional in the client types. -/
structure PodTemplateSpec where
  spec : Option PodSpec
deriving DecidableEq, Repr

/-- `V1StatefulSetSpec`, restricted to the fields the orchestrator reads. -/
structure StatefulSetSpec where
  replicas : Option Nat
  template : PodTemplateSpec
deriving DecidableEq, Repr

/-- `V1StatefulSetStatus`, restricted to the fields the orchestrator reads. -/
structure StatefulSetStatus where
  replicas : Option Nat
  readyReplicas : Option Nat
  currentReplicas : Option Nat
  updatedReplicas : Option Nat
  currentRevision : Option String
  updateRevision : Option String
deriving DecidableEq, Repr

/-- `V1StatefulSet`: both `spec` and `status` are optional in the client types. -/
structure StatefulSet where
  spec : Option StatefulSetSpec
  status : Option StatefulSetStatus
deriving DecidableEq, Repr

/-- `StatefulSetStatusDetail` interface from the source. -/
structure StatefulSetStatusDetail where
  status : SandboxStatus
  replicas : Nat
  readyReplicas : Nat
  currentReplicas : Nat
  updatedReplicas : Nat
  currentRevision : Option String
  updateRevision : Option String
  isReady : Bool
deriving DecidableEq, Repr

/-- `statefulSet.spec?.replicas || 0` -/
def specReplicasOf (sts : StatefulSet) : Nat :=
  (sts.spec.bind StatefulSetSpec.replicas).getD 0

/-- `statefulSet.status?.replicas || 0` -/
def statusReplicasOf (sts : StatefulSet) : Nat :=
  (sts.status.bind StatefulSetStatus.replicas).getD 0

/-- `statefulSet.status?.readyReplicas || 0` -/
def readyReplicasOf (sts : StatefulSet) : Nat :=
  (sts.status.bind StatefulSetStatus.readyReplicas).getD 0

/-- `statefulSet.status?.currentReplicas || 0` -/
def currentReplicasOf (sts : StatefulSet) : Nat :=
  (sts.status.bind StatefulSetStatus.currentReplicas).getD 0

/-- `statefulSet.status?.updatedReplicas || 0` -/
def updatedReplicasOf (sts : StatefulSet) : Nat :=
  (sts.status.bind StatefulSetStatus.updatedReplicas).getD 0

/-- The success path of `getStatefulSetStatus` (lines 327-375): derive the
detailed status from an existing StatefulSet object. -/
def detailOf (sts : StatefulSet) : StatefulSetStatusDetail :=
  let specReplicas := specReplicasOf sts
  let statusReplicas := statusReplicasOf sts
  let readyReplicas := readyReplicasOf sts
  let currentReplicas := currentReplicasOf sts
  let updatedReplicas := updatedReplicasOf sts
  let isReady : Bool :=
    decide (0 < specReplicas ∧ statusReplicas = specReplicas ∧ readyReplicas = specReplicas ∧
      currentReplicas = specReplicas ∧ updatedReplicas = specReplicas)
  let status : SandboxStatus :=
    if specReplicas = 0 then
      if 0 < currentReplicas then SandboxStatus.STOPPING else SandboxStatus.STOPPED
    else
      if isReady then SandboxStatus.RUNNING else SandboxStatus.STARTING
  { status := status
    replicas := specReplicas
    readyReplicas := readyReplicas
    currentReplicas := currentReplicas
    updatedReplicas := updatedReplicas
    currentRevision := sts.status.bind StatefulSetStatus.currentRevision
    updateRevision := sts.status.bind StatefulSetStatus.updateRevision
    isReady := isReady }

/-- Private `getStatefulSet`: a not-found failure of the read is converted to `none`
(null), any other failure propagates (is rethrown). The argument is the outcome of
`readNamespacedStatefulSet`. -/
def getStatefulSet (r : Except K8sError StatefulSet) : Except K8sError (Option StatefulSet) :=
  match r with
  | Except.ok sts => Except.ok (some sts)
  | Except.error e => if isK8sNotFound e then Except.ok none else Except.error e

/-- The structural probe in the catch block of `getStatefulSetStatus` (lines 380-386):
`'response' in error && typeof error.response === 'object' && error.response.statusCode === 404`. -/
def caughtResponseIs404 (e : K8sError) : Bool :=
  match e.response with
  | some r => r.statusCode == some 404
  | none => false

/-- The `TERMINATED` detail object returned for an absent StatefulSet. -/
def terminatedDetail : StatefulSetStatusDetail :=
  { status := SandboxStatus.TERMINATED
    replicas := 0
    readyReplicas := 0
    currentReplicas := 0
    updatedReplicas := 0
    currentRevision := none
    updateRevision := none
    isReady := false }

/-- The `ERROR` detail object returned for a non-404 query failure. -/
def errorDetail : StatefulSetStatusDetail :=
  { status := SandboxStatus.ERROR
    replicas := 0
    readyReplicas := 0
    currentReplicas := 0
    updatedReplicas := 0
    currentRevision := none
    updateRevision := none
    isReady := false }

/-- `getStatefulSetStatus` (lines 309-406), as a function of the underlying read's outcome. -/
def getStatefulSetStatus (r : Except K8sError StatefulSet) : StatefulSetStatusDetail :=
  match getStatefulSet r with
  | Except.ok none => terminatedDetail
  | Except.ok (some sts) => detailOf sts
  | Except.error e => if caughtResponseIs404 e then terminatedDetail else errorDetail

/-- Status classification written from the spec's words (§4.4), to be compared with
the source-derived `detailOf`: declared 0 splits on the current count; declared
positive is RUNNING exactly when all four observed counters equal the declared count. -/
def specStatusRule (declared total ready current updated : Nat) : SandboxStatus :=
  if declared = 0 then
    if 0 < current then SandboxStatus.STOPPING else SandboxStatus.STOPPED
  else
    if total = declared ∧ ready = declared ∧ current = declared ∧ updated = declared then
      SandboxStatus.RUNNING
    else
      SandboxStatus.STARTING

/-- The spec's concrete example: declared 2, observed-total 2, ready 2, current 2, updated 1. -/
def laggingUpdateSts : StatefulSet :=
  { spec := some { replicas := some 2, template := { spec := none } }
    status := some
      { replicas := some 2
        readyReplicas := some 2
        currentReplicas := some 2
        updatedReplicas := some 1
        currentRevision := none
        updateRevision := none } }

/-- Claim C1: for every query where the StatefulSet exists, `getStatefulSetStatus`
classifies its state by the spec's rules: declared replicas 0 gives STOPPING when the
current count is positive and STOPPED when it is 0; declared replicas positive gives
RUNNING exactly when total, ready, current and updated counts all equal the declared
count, and STARTING otherwise; in particular declared 2, total 2, ready 2, current 2,
updated 1 yields STARTING, not RUNNING. -/
theorem C1_status_classification (sts : StatefulSet) :
    (getStatefulSetStatus (Except.ok sts)).status =
      specStatusRule (specReplicasOf sts) (statusReplicasOf sts) (readyReplicasOf sts)
        (currentReplicasOf sts) (updatedReplicasOf sts) ∧
    (getStatefulSetStatus (Except.ok laggingUpdateSts)).status = SandboxStatus.STARTING := by
  constructor
  · show (detailOf sts).status = _
    unfold detailOf specStatusRule
    by_cases h0 : specReplicasOf sts = 0
    · simp only [h0, if_true]
    · have hpos : 0 < specReplicasOf sts := Nat.pos_of_ne_zero h0
      by_cases heq : statusReplicasOf sts = specReplicasOf sts ∧
          readyReplicasOf sts = specReplicasOf sts ∧
          currentReplicasOf sts = specReplicasOf sts ∧
          updatedReplicasOf sts = specReplicasOf sts
      · simp [h0, heq, hpos]
      · simp only [h0, if_false]
        rw [if_neg, if_neg]
        · intro hc
          exact heq ⟨hc.1, hc.2.1, hc.2.2.1, hc.2.2.2⟩
        · simp only [decide_eq_true_eq]
          intro hc
          exact heq ⟨hc.2.1, hc.2.2.1, hc.2.2.2.1, hc.2.2.2.2⟩
  · decide

/-- Claim C2: `getStatefulSetStatus` never throws on a failed query: a not-found
failure yields TERMINATED with all four counters zero and `isReady` false, any other
failure yields ERROR with all four counters zero. (In the embedding the function is
total: both failure shapes are mapped to a returned detail object, never rethrown.) -/
theorem C2_failure_mapping (e : K8sError) :
    getStatefulSetStatus (Except.error e) =
      (if isK8sNotFound e then
        { status := SandboxStatus.TERMINATED
          replicas := 0
          readyReplicas := 0
          currentReplicas := 0
          updatedReplicas := 0
          currentRevision := none
          updateRevision := none
          isReady := false }
      else
        { status := SandboxStatus.ERROR
          replicas := 0
          readyReplicas := 0
          currentReplicas := 0
          updatedReplicas := 0
          currentRevision := none
          updateRevision := none
          isReady := false }) := by
  have hsame : caughtResponseIs404 e = isK8sNotFound e := rfl
  by_cases h : isK8sNotFound e
  · simp [getStatefulSetStatus, getStatefulSet, h, terminatedDetail]
  · simp [getStatefulSetStatus, getStatefulSet, h, hsame, errorDetail]

/-! ### stopSandbox (lines 185-226) -/

/-- `stopSandbox`, as a transition on the per-sandbox cluster state (the StatefulSet
object, or `none` when absent). Returns the new state together with whether a patch
was issued. Absent workload: no-op. Declared replicas already 0 (or absent, `|| 0`):
no-op. Otherwise a single-field replace of `/spec/replicas` to 0. -/
def stopSandbox (s : Option StatefulSet) : Option StatefulSet × Bool :=
  match s with
  | none => (none, false)
  | some st =>
    match st.spec with
    | none => (some st, false)
    | some sp =>
      if sp.replicas.getD 0 = 0 then (some st, false)
      else (some { st with spec := some { sp with replicas := some 0 } }, true)

/-- Claim C5: stopping twice is the same as stopping once - the second call leaves the
state unchanged and issues no write; an absent workload is a no-op, declared replicas
already 0 is a no-op, and otherwise the only change is `/spec/replicas` set to 0. -/
theorem C5_stop_idempotent (s : Option StatefulSet) :
    stopSandbox (stopSandbox s).1 = ((stopSandbox s).1, false) ∧
    stopSandbox none = (none, false) ∧
    (∀ st sp, s = some st → st.spec = some sp → sp.replicas.getD 0 = 0 →
      stopSandbox s = (s, false)) ∧
    (∀ st sp n, s = some st → st.spec = some sp → sp.replicas = some (n + 1) →
      stopSandbox s = (some { st with spec := some { sp with replicas := some 0 } }, true)) := by
  refine ⟨?_, rfl, ?_, ?_⟩
  · match s with
    | none => rfl
    | some st =>
      match hsp : st.spec with
      | none => simp [stopSandbox, hsp]
      | some sp =>
        by_cases h0 : sp.replicas.getD 0 = 0
        · simp [stopSandbox, hsp, h0]
        · simp [stopSandbox, hsp, h0]
  · rintro st sp rfl hsp h0
    simp [stopSandbox, hsp, h0]
  · rintro st sp n rfl hsp hn
    simp [stopSandbox, hsp, hn]

/-- A concrete running workload: one declared replica, empty pod template. -/
def runningSts : StatefulSet :=
  { spec := some { replicas := some 1, template := { spec := none } }, status := none }

/-- Closed instance of `C5_stop_idempotent`: a running one-replica workload is
patched to 0 by the first stop and untouched by the second. -/
theorem C5_stop_idempotent_witness :
    (stopSandbox (stopSandbox (some runningSts)).1 = ((stopSandbox (some runningSts)).1, false) ∧
      stopSandbox none = (none, false) ∧
      (∀ st sp, some runningSts = some st → st.spec = some sp → sp.replicas.getD 0 = 0 →
        stopSandbox (some runningSts) = (some runningSts, false)) ∧
      (∀ st sp n, some runningSts = some st → st.spec = some sp → sp.replicas = some (n + 1) →
        stopSandbox (some runningSts) =
          (some { st with spec := some { sp with replicas := some 0 } }, true))) ∧
    (stopSandbox (some runningSts)).2 = true :=
  ⟨C5_stop_idempotent (some runningSts), by decide⟩

/-! ### deleteSandbox (lines 160-172) and the per-resource delete helpers -/

/-- `Promise.all` over already-settled outcomes: resolves exactly when every member
resolved, otherwise rejects (with the first rejection in order). -/
def promiseAll : List (Except K8sError Unit) → Except K8sError Unit
  | [] => Except.ok ()
  | Except.ok _ :: rest => promiseAll rest
  | Except.error e :: _ => Except.error e

/-- `deleteStatefulSet` (lines 1305-1321): not-found is success, else rethrow. -/
def deleteStatefulSetOp (r : Except K8sError Unit) : Except K8sError Unit :=
  match r with
  | Except.ok _ => Except.ok ()
  | Except.error e => if isK8sNotFound e then Except.ok () else Except.error e

/-- `deleteService` (lines 1326-1343): not-found is success, else rethrow. -/
def deleteServiceOp (r : Except K8sError Unit) : Except K8sError Unit :=
  match r with
  | Except.ok _ => Except.ok ()
  | Except.error e => if isK8sNotFound e then Except.ok () else Except.error e

/-- `deleteIngress` (lines 1363-1379): not-found is success, else rethrow. -/
def deleteIngressOp (r : Except K8sError Unit) : Except K8sError Unit :=
  match r with
  | Except.ok _ => Except.ok ()
  | Except.error e => if isK8sNotFound e then Except.ok () else Except.error e

/-- `deleteIngresses` (lines 1348-1358): the three ingress deletions in parallel. -/
def deleteIngresses (app ttyd fileBrowser : Except K8sError Unit) : Except K8sError Unit :=
  promiseAll [deleteIngressOp app, deleteIngressOp ttyd, deleteIngressOp fileBrowser]

/-- `deletePVCs` (lines 1394-1421): the inner catch maps not-found to success, the
outer catch logs and swallows every other failure, so the call always resolves. -/
def deletePVCsOp (r : Except K8sError Unit) : Except K8sError Unit :=
  match r with
  | Except.ok _ => Except.ok ()
  | Except.error e => if isK8sNotFound e then Except.ok () else Except.ok ()

/-- The outcome each underlying Kubernetes delete call reported, one per sub-resource. -/
structure DeleteOutcomes where
  sts : Except K8sError Unit
  svc : Except K8sError Unit
  appIngress : Except K8sError Unit
  ttydIngress : Except K8sError Unit
  fileBrowserIngress : Except K8sError Unit
  pvc : Except K8sError Unit

/-- `deleteSandbox` (lines 160-172): all sub-resource deletions are issued together
(each consumes its own independently supplied outcome) and awaited with `Promise.all`. -/
def deleteSandbox (o : DeleteOutcomes) : Except K8sError Unit :=
  promiseAll
    [deleteStatefulSetOp o.sts,
     deleteServiceOp o.svc,
     deleteIngresses o.appIngress o.ttydIngress o.fileBrowserIngress,
     deletePVCsOp o.pvc]

/-- A delete outcome that counts as success for the propagating deletions. -/
def okOrNotFound (r : Except K8sError Unit) : Bool :=
  match r with
  | Except.ok _ => true
  | Except.error e => isK8sNotFound e

theorem promiseAll_ok_iff (l : List (Except K8sError Unit)) :
    promiseAll l = Except.ok () ↔ ∀ r ∈ l, r = Except.ok () := by
  induction l with
  | nil => simp [promiseAll]
  | cons r rest ih =>
    match r with
    | Except.ok u => simp [promiseAll, ih]
    | Except.error e => simp [promiseAll]

theorem deleteStatefulSetOp_ok_iff (r : Except K8sError Unit) :
    deleteStatefulSetOp r = Except.ok () ↔ okOrNotFound r = true := by
  match r with
  | Except.ok u => simp [deleteStatefulSetOp, okOrNotFound]
  | Except.error e =>
    by_cases h : isK8sNotFound e <;> simp [deleteStatefulSetOp, okOrNotFound, h]

theorem deleteServiceOp_ok_iff (r : Except K8sError Unit) :
    deleteServiceOp r = Except.ok () ↔ okOrNotFound r = true := by
  match r with
  | Except.ok u => simp [deleteServiceOp, okOrNotFound]
  | Except.error e =>
    by_cases h : isK8sNotFound e <;> simp [deleteServiceOp, okOrNotFound, h]

theorem deleteIngressOp_ok_iff (r : Except K8sError Unit) :
    deleteIngressOp r = Except.ok () ↔ okOrNotFound r = true := by
  match r with
  | Except.ok u => simp [deleteIngressOp, okOrNotFound]
  | Except.error e =>
    by_cases h : isK8sNotFound e <;> simp [deleteIngressOp, okOrNotFound, h]

theorem deletePVCsOp_ok (r : Except K8sError Unit) : deletePVCsOp r = Except.ok () := by
  match r with
  | Except.ok u => rfl
  | Except.error e => by_cases h : isK8sNotFound e <;> simp [deletePVCsOp, h]

/-- Claim C3: `deleteSandbox` awaits all sub-resource deletions together and resolves
exactly when the workload, service and three ingress deletions each succeeded or hit
not-found - independently of the storage-claim outcome, whose failures are swallowed;
in particular it resolves when the claim deletion fails with a non-not-found error,
while a non-not-found failure of any other deletion propagates. -/
theorem C3_delete_error_policy (o : DeleteOutcomes) :
    (deleteSandbox o = Except.ok () ↔
      (okOrNotFound o.sts = true ∧ okOrNotFound o.svc = true ∧
       okOrNotFound o.appIngress = true ∧ okOrNotFound o.ttydIngress = true ∧
       okOrNotFound o.fileBrowserIngress = true)) ∧
    deleteSandbox
      { sts := Except.ok (), svc := Except.ok (), appIngress := Except.ok (),
        ttydIngress := Except.ok (), fileBrowserIngress := Except.ok (),
        pvc := Except.error { response := some { statusCode := some 500 } } } =
      Except.ok () := by
  refine ⟨?_, rfl⟩
  · rw [deleteSandbox, promiseAll_ok_iff]
    simp only [List.mem_cons, List.not_mem_nil, or_false, forall_eq_or_imp, forall_eq]
    rw [deleteStatefulSetOp_ok_iff, deleteServiceOp_ok_iff]
    rw [deleteIngresses, promiseAll_ok_iff]
    simp only [List.mem_cons, List.not_mem_nil, or_false, forall_eq_or_imp, forall_eq]
    rw [deleteIngressOp_ok_iff, deleteIngressOp_ok_iff, deleteIngressOp_ok_iff]
    simp [deletePVCsOp_ok, and_assoc]

/-! ### createSandbox sub-resource creation (lines 597-842, 976-1025, 1073-1088) -/

/-- The structural 409-conflict probe in `createStatefulSet`'s catch block
(lines 829-835). -/
def caughtResponseIs409 (e : K8sError) : Bool :=
  match e.response with
  | some r => r.statusCode == some 409
  | none => false

/-- `createStatefulSet` (lines 597-842) as a function of the existence read's outcome
and the create call's outcome: skip when the read finds the object, propagate a
non-not-found read failure, and treat a 409 conflict from the create as success. -/
def createStatefulSetOp (rd : Except K8sError Unit) (cr : Except K8sError Unit) :
    Except K8sError Unit :=
  match rd with
  | Except.ok _ => Except.ok ()
  | Except.error e =>
    if isK8sNotFound e then
      match cr with
      | Except.ok _ => Except.ok ()
      | Except.error ce => if caughtResponseIs409 ce then Except.ok () else Except.error ce
    else Except.error e

/-- The read-error probe in `createService` (lines 989-995): throw when the caught
error has a response object whose status code is not 404, else fall through to create. -/
def serviceReadErrorThrows (e : K8sError) : Bool :=
  match e.response with
  | some r => !(r.statusCode == some 404)
  | none => false

/-- `createService` (lines 976-1025): skip when the existence read succeeds, rethrow a
non-404 read failure, and otherwise submit the create - whose outcome, including a
409 conflict, is returned as-is (no conflict handling on the create call). -/
def createService (rd : Except K8sError Unit) (cr : Except K8sError Unit) :
    Except K8sError Unit :=
  match rd with
  | Except.ok _ => Except.ok ()
  | Except.error e => if serviceReadErrorThrows e then Except.error e else cr

/-- `createIngressIfNotExists` (lines 1073-1088): skip when the read succeeds, create
on not-found (returning the create call's outcome unfiltered), rethrow otherwise. -/
def createIngressIfNotExists (rd : Except K8sError Unit) (cr : Except K8sError Unit) :
    Except K8sError Unit :=
  match rd with
  | Except.ok _ => Except.ok ()
  | Except.error e => if isK8sNotFound e then cr else Except.error e

/-- A not-found (404) read failure. -/
def err404 : K8sError := { response := some { statusCode := some 404 } }

/-- A 409 conflict returned by a create call. -/
def err409 : K8sError := { response := some { statusCode := some 409 } }

/-- Counterexample to claim C4: when the existence read reports not-found and the
create call then fails with a 409 conflict, `createService` and
`createIngressIfNotExists` propagate the conflict as an error instead of treating it
as success; only the StatefulSet creation maps it to success. -/
theorem C4_conflict_counterexample :
    createService (Except.error err404) (Except.error err409) = Except.error err409 ∧
    createIngressIfNotExists (Except.error err404) (Except.error err409) =
      Except.error err409 ∧
    createStatefulSetOp (Except.error err404) (Except.error err409) = Except.ok () := by
  refine ⟨rfl, rfl, rfl⟩

/-- Claim C4 as amended: every sub-resource creation first checks for existence and
skips when the resource is found; the StatefulSet creation additionally treats a 409
conflict from the create call itself as success, while the Service and Ingress
creations propagate such a conflict to the caller. -/
theorem C4_create_idempotence (cr : Except K8sError Unit) :
    createStatefulSetOp (Except.ok ()) cr = Except.ok () ∧
    createService (Except.ok ()) cr = Except.ok () ∧
    createIngressIfNotExists (Except.ok ()) cr = Except.ok () ∧
    createStatefulSetOp (Except.error err404) (Except.error err409) = Except.ok () ∧
    createService (Except.error err404) (Except.error err409) = Except.error err409 ∧
    createIngressIfNotExists (Except.error err404) (Except.error err409) =
      Except.error err409 := by
  exact ⟨rfl, rfl, rfl, rfl, rfl, rfl⟩

/-! ### JavaScript records as insertion-ordered association lists

`Record<string, string>` values (the env-var maps) are modelled as lists of
key/value pairs with unique keys. `recGet` is property read, `recSet` is property
write (an existing key keeps its position and gets the new value, a fresh key is
appended), `recMerge cur req` is the spread `{...cur, ...req}`. -/

/-- Property read: the value at the first (unique) occurrence of the key. -/
def recGet : List (String × String) → String → Option String
  | [], _ => none
  | kv :: rest, k => if kv.fst = k then some kv.snd else recGet rest k

/-- Property write: overwrite in place, or append a fresh key. -/
def recSet : List (String × String) → String → String → List (String × String)
  | [], k, v => [(k, v)]
  | kv :: rest, k, v => if kv.fst = k then (k, v) :: rest else kv :: recSet rest k v

/-- Object spread `{...cur, ...req}`. -/
def recMerge (cur req : List (String × String)) : List (String × String) :=
  req.foldl (fun m kv => recSet m kv.fst kv.snd) cur

/-- The keys of a record, in order. -/
def recKeys (m : List (String × String)) : List String := m.map Prod.fst

theorem recGet_recSet_self (m : List (String × String)) (k v : String) :
    recGet (recSet m k v) k = some v := by
  induction m with
  | nil => simp [recSet, recGet]
  | cons kv rest ih =>
    by_cases h : kv.fst = k
    · simp [recSet, h, recGet]
    · simp [recSet, h, recGet, ih]

theorem recGet_recSet_ne (m : List (String × String)) (k v k' : String) (h : k' ≠ k) :
    recGet (recSet m k v) k' = recGet m k' := by
  induction m with
  | nil =>
    simp only [recSet, recGet]
    rw [if_neg (Ne.symm h)]
  | cons kv rest ih =>
    simp only [recSet]
    by_cases hk : kv.fst = k
    · rw [if_pos hk]
      simp only [recGet]
      rw [if_neg (Ne.symm h), if_neg (fun he : kv.fst = k' => h (hk.symm.trans he).symm)]
    · rw [if_neg hk]
      simp only [recGet]
      by_cases hk' : kv.fst = k'
      · rw [if_pos hk', if_pos hk']
      · rw [if_neg hk', if_neg hk', ih]

theorem recGet_eq_none_of_not_mem (m : List (String × String)) (k : String)
    (h : k ∉ recKeys m) : recGet m k = none := by
  induction m with
  | nil => rfl
  | cons kv rest ih =>
    simp only [recKeys, List.map_cons, List.mem_cons, not_or] at h
    simp only [recGet]
    rw [if_neg (fun he : kv.fst = k => h.1 he.symm)]
    exact ih (by simpa [recKeys] using h.2)

theorem mem_of_recGet_eq_some (m : List (String × String)) (k v : String)
    (h : recGet m k = some v) : (k, v) ∈ m := by
  induction m with
  | nil => simp [recGet] at h
  | cons kv rest ih =>
    by_cases hk : kv.fst = k
    · simp only [recGet, if_pos hk, Option.some.injEq] at h
      have : kv = (k, v) := Prod.ext hk h
      simp [this]
    · simp only [recGet, if_neg hk] at h
      exact List.mem_cons_of_mem _ (ih h)

theorem recGet_recMerge_of_none (cur req : List (String × String)) (k : String)
    (h : recGet req k = none) : recGet (recMerge cur req) k = recGet cur k := by
  induction req generalizing cur with
  | nil => rfl
  | cons kv rest ih =>
    by_cases hk : kv.fst = k
    · simp [recGet, hk] at h
    · simp only [recGet, if_neg hk] at h
      show recGet (recMerge (recSet cur kv.fst kv.snd) rest) k = _
      rw [ih _ h, recGet_recSet_ne _ _ _ _ (fun he => hk he.symm)]

theorem recGet_recMerge_mem (cur req : List (String × String)) (k v : String)
    (hnd : (recKeys req).Nodup) (hmem : (k, v) ∈ req) :
    recGet (recMerge cur req) k = some v := by
  induction req generalizing cur with
  | nil => cases hmem
  | cons kv rest ih =>
    simp only [recKeys, List.map_cons, List.nodup_cons] at hnd
    rcases List.mem_cons.mp hmem with heq | hmem'
    · subst heq
      have hnot : k ∉ recKeys rest := by simpa [recKeys] using hnd.1
      show recGet (recMerge (recSet cur k v) rest) k = some v
      rw [recGet_recMerge_of_none _ _ _ (recGet_eq_none_of_not_mem _ _ hnot)]
      exact recGet_recSet_self _ _ _
    · show recGet (recMerge (recSet cur kv.fst kv.snd) rest) k = some v
      exact ih _ (by simpa [recKeys] using hnd.2) hmem'

theorem recSet_eq_append (m : List (String × String)) (k v : String)
    (h : k ∉ recKeys m) : recSet m k v = m ++ [(k, v)] := by
  induction m with
  | nil => rfl
  | cons kv rest ih =>
    simp only [recKeys, List.map_cons, List.mem_cons, not_or] at h
    simp only [recSet]
    rw [if_neg (fun he : kv.fst = k => h.1 he.symm), List.cons_append]
    rw [ih (by simpa [recKeys] using h.2)]

theorem mem_recSet (m : List (String × String)) (k v : String) (kv' : String × String)
    (h : kv' ∈ recSet m k v) : kv' = (k, v) ∨ kv' ∈ m := by
  induction m with
  | nil => simpa [recSet] using h
  | cons kv rest ih =>
    by_cases hk : kv.fst = k
    · simp only [recSet, if_pos hk, List.mem_cons] at h
      rcases h with h | h
      · exact Or.inl h
      · exact Or.inr (List.mem_cons_of_mem _ h)
    · simp only [recSet, if_neg hk, List.mem_cons] at h
      rcases h with h | h
      · exact Or.inr (by simp [h])
      · rcases ih h with h' | h'
        · exact Or.inl h'
        · exact Or.inr (List.mem_cons_of_mem _ h')

theorem recKeys_recSet_of_mem (m : List (String × String)) (k v : String)
    (h : k ∈ recKeys m) : recKeys (recSet m k v) = recKeys m := by
  induction m with
  | nil => cases h
  | cons kv rest ih =>
    simp only [recSet]
    by_cases hk : kv.fst = k
    · rw [if_pos hk]
      simp [recKeys, hk]
    · rw [if_neg hk]
      have hrest : k ∈ recKeys rest := by
        rcases (by simpa [recKeys] using h : k = kv.fst ∨ k ∈ recKeys rest) with he | hr
        · exact absurd he.symm hk
        · exact hr
      simp only [recKeys, List.map_cons]
      rw [show List.map Prod.fst (recSet rest k v) = recKeys (recSet rest k v) from rfl,
        ih hrest]
      rfl

theorem nodup_recKeys_recSet (m : List (String × String)) (k v : String)
    (h : (recKeys m).Nodup) : (recKeys (recSet m k v)).Nodup := by
  by_cases hmem : k ∈ recKeys m
  · rw [recKeys_recSet_of_mem _ _ _ hmem]
    exact h
  · rw [recSet_eq_append _ _ _ hmem]
    have : recKeys (m ++ [(k, v)]) = recKeys m ++ [k] := by simp [recKeys]
    rw [this, List.nodup_append]
    exact ⟨h, List.nodup_singleton _, fun x hx hxk => hmem ((List.mem_singleton.mp hxk) ▸ hx)⟩

/-! ### updateStatefulSetEnvVars (lines 422-535) -/

/-- One iteration of the loop building `currentEnvMap` (lines 450-457): entries with
a falsy (empty) name or an undefined value are skipped. -/
def envInsertStep (m : List (String × String)) (ev : EnvVar) : List (String × String) :=
  match ev.value with
  | some v => if ev.name = "" then m else recSet m ev.name v
  | none => m

/-- Convert the main container's env array to a map (lines 450-457). -/
def currentEnvMapOf (env : List EnvVar) : List (String × String) :=
  env.foldl envInsertStep []

/-- The change check (lines 459-468): some requested key differs in value
(`currentEnvMap[key] !== String(value)`, a missing key compares unequal). -/
def hasChanges (cur req : List (String × String)) : Bool :=
  req.any (fun kv => !(recGet cur kv.fst == some kv.snd))

/-- Convert the merged map back to an env array (lines 486-489). -/
def toEnvArray (m : List (String × String)) : List EnvVar :=
  m.map (fun kv => { name := kv.fst, value := some kv.snd })

/-- `containers.find((container) => container.name === sandboxName)` (lines 440-442):
first container whose name equals the sandbox name. -/
def findContainer (name : String) : List Container → Option Container
  | [] => none
  | c :: rest => if c.name = name then some c else findContainer name rest

/-- The visible result of one `updateStatefulSetEnvVars` call: the boolean the method
returned together with the container list of the workload object passed to
`replaceNamespacedStatefulSet` (`none` when no replace was invoked), or `threw` for
the rethrowing paths. -/
inductive UpdateOutcome where
  | returned (value : Bool) (submitted : Option (List Container))
  | threw
deriving DecidableEq, Repr

/-- `updateStatefulSetEnvVars` (lines 429-529) on an existing StatefulSet, as a
transition on the per-sandbox cluster state: the replace submits the whole mutated
object, so on a write the new state is the submitted object. A missing `spec` or pod
spec makes the source's non-null assertions throw (rethrown by the catch block). -/
def applyEnvUpdate (name : String) (sts : StatefulSet) (req : List (String × String)) :
    StatefulSet × UpdateOutcome :=
  match sts.spec with
  | none => (sts, UpdateOutcome.threw)
  | some sp =>
    match sp.template.spec with
    | none => (sts, UpdateOutcome.threw)
    | some ps =>
      match findContainer name ps.containers with
      | none => (sts, UpdateOutcome.returned false none)
      | some mc =>
        let cur := currentEnvMapOf (mc.env.getD [])
        if hasChanges cur req then
          let updatedEnv := toEnvArray (recMerge cur req)
          let containers := ps.containers.map (fun c =>
            if c.name = name then { c with env := some updatedEnv } else c)
          ({ sts with
              spec := some { sp with
                template := { sp.template with spec := some { ps with containers := containers } } } },
            UpdateOutcome.returned true (some containers))
        else (sts, UpdateOutcome.returned true none)

/-- `updateStatefulSetEnvVars` including the absent-workload path (lines 431-437). -/
def updateStatefulSetEnvVars (name : String) (sts : Option StatefulSet)
    (req : List (String × String)) : UpdateOutcome :=
  match sts with
  | none => UpdateOutcome.returned false none
  | some s => (applyEnvUpdate name s req).2

/-- The main-container lookup (lines 440-442): the container whose name equals the
sandbox name, reachable only when spec and pod spec are present. -/
def mainContainerOf (name : String) (sts : StatefulSet) : Option Container :=
  (sts.spec.bind (fun sp => sp.template.spec)).bind
    (fun ps => findContainer name ps.containers)

theorem hasChanges_eq_false_iff (cur req : List (String × String)) :
    hasChanges cur req = false ↔ ∀ kv ∈ req, recGet cur kv.fst = some kv.snd := by
  simp [hasChanges]

theorem envInsertStep_preserves (acc : List (String × String)) (ev : EnvVar)
    (h1 : ∀ kv ∈ acc, kv.fst ≠ "") (h2 : (recKeys acc).Nodup) :
    (∀ kv ∈ envInsertStep acc ev, kv.fst ≠ "") ∧ (recKeys (envInsertStep acc ev)).Nodup := by
  cases hv : ev.value with
  | none =>
    rw [show envInsertStep acc ev = acc from by simp [envInsertStep, hv]]
    exact ⟨h1, h2⟩
  | some v =>
    by_cases hn : ev.name = ""
    · rw [show envInsertStep acc ev = acc from by simp [envInsertStep, hv, hn]]
      exact ⟨h1, h2⟩
    · rw [show envInsertStep acc ev = recSet acc ev.name v from by simp [envInsertStep, hv, hn]]
      refine ⟨?_, nodup_recKeys_recSet _ _ _ h2⟩
      intro kv hkv
      rcases mem_recSet _ _ _ _ hkv with he | hm
      · rw [he]
        exact hn
      · exact h1 kv hm

theorem foldl_envInsertStep_inv (env : List EnvVar) (acc : List (String × String))
    (h1 : ∀ kv ∈ acc, kv.fst ≠ "") (h2 : (recKeys acc).Nodup) :
    (∀ kv ∈ List.foldl envInsertStep acc env, kv.fst ≠ "") ∧
      (recKeys (List.foldl envInsertStep acc env)).Nodup := by
  induction env generalizing acc with
  | nil => exact ⟨h1, h2⟩
  | cons ev rest ih =>
    rw [List.foldl_cons]
    have h := envInsertStep_preserves acc ev h1 h2
    exact ih _ h.1 h.2

theorem currentEnvMapOf_inv (env : List EnvVar) :
    (∀ kv ∈ currentEnvMapOf env, kv.fst ≠ "") ∧ (recKeys (currentEnvMapOf env)).Nodup :=
  foldl_envInsertStep_inv env []
    (by intro kv h; cases h) (by simp [recKeys])

theorem recMerge_inv (cur req : List (String × String))
    (h1 : ∀ kv ∈ cur, kv.fst ≠ "") (h2 : (recKeys cur).Nodup)
    (hreq : ∀ kv ∈ req, kv.fst ≠ "") :
    (∀ kv ∈ recMerge cur req, kv.fst ≠ "") ∧ (recKeys (recMerge cur req)).Nodup := by
  induction req generalizing cur with
  | nil => exact ⟨h1, h2⟩
  | cons kv rest ih =>
    refine ih (recSet cur kv.fst kv.snd) ?_ (nodup_recKeys_recSet _ _ _ h2) ?_
    · intro kv' h'
      rcases mem_recSet _ _ _ _ h' with he | hm
      · rw [he]
        exact hreq kv (List.mem_cons_self _ _)
      · exact h1 kv' hm
    · intro kv' h'
      exact hreq kv' (List.mem_cons_of_mem _ h')

theorem foldl_envInsertStep_toEnvArray (m : List (String × String))
    (acc : List (String × String))
    (hne : ∀ kv ∈ m, kv.fst ≠ "") (hnd : (recKeys m).Nodup)
    (hdisj : ∀ kv ∈ m, kv.fst ∉ recKeys acc) :
    List.foldl envInsertStep acc (toEnvArray m) = acc ++ m := by
  induction m generalizing acc with
  | nil => simp [toEnvArray]
  | cons kv rest ih =>
    rw [show toEnvArray (kv :: rest) =
      EnvVar.mk kv.fst (some kv.snd) :: toEnvArray rest from rfl]
    rw [List.foldl_cons]
    have hstep : envInsertStep acc (EnvVar.mk kv.fst (some kv.snd)) = acc ++ [kv] := by
      simp only [envInsertStep]
      rw [if_neg (hne kv (List.mem_cons_self _ _))]
      rw [recSet_eq_append _ _ _ (hdisj kv (List.mem_cons_self _ _))]
    rw [hstep]
    have hknotin : kv.fst ∉ recKeys rest := by
      have := (by simpa [recKeys] using hnd : (kv.fst :: recKeys rest).Nodup)
      exact (List.nodup_cons.mp (by simpa [recKeys] using this)).1
    rw [ih _ (fun kv' h' => hne kv' (List.mem_cons_of_mem _ h'))
      (by simpa [recKeys] using (List.nodup_cons.mp (by simpa [recKeys] using hnd)).2) ?_]
    · simp
    · intro kv' h'
      have h1 : kv'.fst ∉ recKeys acc := hdisj kv' (List.mem_cons_of_mem _ h')
      have h2 : kv'.fst ≠ kv.fst := by
        intro he
        exact hknotin (he ▸ List.mem_map_of_mem Prod.fst h')
      rw [show recKeys (acc ++ [kv]) = recKeys acc ++ [kv.fst] from by simp [recKeys]]
      intro hmem
      rcases List.mem_append.mp hmem with hx | hx
      · exact h1 hx
      · exact h2 (List.mem_singleton.mp hx)

theorem currentEnvMapOf_toEnvArray (m : List (String × String))
    (hne : ∀ kv ∈ m, kv.fst ≠ "") (hnd : (recKeys m).Nodup) :
    currentEnvMapOf (toEnvArray m) = m := by
  have := foldl_envInsertStep_toEnvArray m [] hne hnd
    (by intro kv h; simp [recKeys])
  simpa [currentEnvMapOf] using this

theorem findContainer_update (l : List Container) (name : String)
    (e : Option (List EnvVar)) (mc : Container)
    (h : findContainer name l = some mc) :
    findContainer name (l.map (fun c => if c.name = name then { c with env := e } else c))
      = some { mc with env := e } := by
  induction l with
  | nil => simp [findContainer] at h
  | cons c rest ih =>
    by_cases hc : c.name = name
    · simp only [findContainer] at h
      rw [if_pos hc] at h
      injection h with h
      subst h
      simp only [List.map_cons]
      rw [show (if c.name = name then { c with env := e } else c) = { c with env := e }
        from if_pos hc]
      simp only [findContainer]
      rw [if_pos (show ({ c with env := e } : Container).name = name from hc)]
    · simp only [findContainer] at h
      rw [if_neg hc] at h
      simp only [List.map_cons]
      rw [show (if c.name = name then { c with env := e } else c) = c from if_neg hc]
      simp only [findContainer]
      rw [if_neg hc]
      exact ih h

/-- Concrete main container for the C6 counterexample: one env entry `SECRET` with no
plain string value (the `valueFrom` shape - `value` undefined). -/
def mcC6x : Container := { name := "box", env := some [{ name := "SECRET", value := none }] }

/-- Concrete StatefulSet for the C6 counterexample. -/
def stsC6x : StatefulSet :=
  { spec := some { replicas := some 1, template := { spec := some { containers := [mcC6x] } } }
    status := none }

/-- The container list the C6 counterexample run submits: `SECRET` is gone. -/
def csC6x : List Container :=
  [{ name := "box", env := some [{ name := "A", value := some "1" }] }]

/-- Counterexample to claim C6 as stated: the env entry `SECRET` (no plain value, the
`valueFrom` shape) is present on the main container and absent from the request
`{A: "1"}`, yet the submitted workload object's main container env is exactly
`[A="1"]` - the rebuild at line 453 skips value-less entries and line 497 replaces
the whole env array, so `SECRET` is dropped, not preserved. -/
theorem C6_counterexample :
    mainContainerOf "box" stsC6x = some mcC6x ∧
    EnvVar.mk "SECRET" none ∈ mcC6x.env.getD [] ∧
    recGet [("A", "1")] "SECRET" = none ∧
    (applyEnvUpdate "box" stsC6x [("A", "1")]).2 = UpdateOutcome.returned true (some csC6x) :=
  ⟨rfl, by decide, rfl, rfl⟩

/-- Claim C6 (amended): whenever `updateStatefulSetEnvVars` submits a workload object,
every environment variable of the main container that the env-map rebuild retains -
nonempty name and a plain string value - and whose key is absent from the request map
is preserved in the submitted container list, while requested keys overwrite existing
values or are added; entries with no plain value (such as `valueFrom` variables) or an
empty name are dropped from the submitted env array. (The key-uniqueness hypothesis
only restates that the request is a JavaScript record.) -/
theorem C6_env_update_merges (name : String) (sts : StatefulSet)
    (req : List (String × String)) (mc : Container) (cs : List Container)
    (hmc : mainContainerOf name sts = some mc)
    (hnd : (recKeys req).Nodup)
    (hrun : (applyEnvUpdate name sts req).2 = UpdateOutcome.returned true (some cs)) :
    ∃ mc', findContainer name cs = some mc' ∧
      (∀ k v, recGet (currentEnvMapOf (mc.env.getD [])) k = some v → recGet req k = none →
        EnvVar.mk k (some v) ∈ mc'.env.getD []) ∧
      (∀ k v, recGet req k = some v → EnvVar.mk k (some v) ∈ mc'.env.getD []) := by
  obtain ⟨ps, hps0, hfind⟩ := Option.bind_eq_some.mp hmc
  obtain ⟨sp, hsp, hps⟩ := Option.bind_eq_some.mp hps0
  simp only [applyEnvUpdate, hsp, hps, hfind] at hrun
  by_cases hch : hasChanges (currentEnvMapOf (mc.env.getD [])) req = true
  · rw [if_pos hch] at hrun
    simp only [UpdateOutcome.returned.injEq, Option.some.injEq, true_and] at hrun
    subst hrun
    refine ⟨{ mc with
        env := some (toEnvArray (recMerge (currentEnvMapOf (mc.env.getD [])) req)) },
      findContainer_update _ _ _ _ hfind, ?_, ?_⟩
    · intro k v hk hnot
      have hmerge : recGet (recMerge (currentEnvMapOf (mc.env.getD [])) req) k = some v := by
        rw [recGet_recMerge_of_none _ _ _ hnot]
        exact hk
      exact List.mem_map_of_mem _ (mem_of_recGet_eq_some _ _ _ hmerge)
    · intro k v hkv
      have hmerge : recGet (recMerge (currentEnvMapOf (mc.env.getD [])) req) k = some v :=
        recGet_recMerge_mem _ _ _ _ hnd (mem_of_recGet_eq_some _ _ _ hkv)
      exact List.mem_map_of_mem _ (mem_of_recGet_eq_some _ _ _ hmerge)
  · rw [if_neg hch] at hrun
    simp at hrun

/-- Concrete container for the C6 instance: one pre-existing variable `KEEP`. -/
def mcC6 : Container := { name := "box", env := some [{ name := "KEEP", value := some "1" }] }

/-- Concrete StatefulSet for the C6 instance. -/
def stsC6 : StatefulSet :=
  { spec := some { replicas := some 1, template := { spec := some { containers := [mcC6] } } }
    status := none }

/-- The container list submitted in the C6 instance: `KEEP` preserved, `NEW` added. -/
def csC6 : List Container :=
  [{ name := "box"
     env := some [{ name := "KEEP", value := some "1" }, { name := "NEW", value := some "2" }] }]

/-- Closed instance of `C6_env_update_merges`: updating `{NEW: "2"}` on a container
holding `KEEP=1` submits a container list whose main container still carries `KEEP=1`
and has gained `NEW=2`. -/
theorem C6_env_update_merges_witness :
    (mainContainerOf "box" stsC6 = some mcC6 ∧ (recKeys [("NEW", "2")]).Nodup ∧
      (applyEnvUpdate "box" stsC6 [("NEW", "2")]).2 = UpdateOutcome.returned true (some csC6)) ∧
    (∃ mc', findContainer "box" csC6 = some mc' ∧
      (∀ k v, recGet (currentEnvMapOf (mcC6.env.getD [])) k = some v →
        recGet [("NEW", "2")] k = none → EnvVar.mk k (some v) ∈ mc'.env.getD []) ∧
      (∀ k v, recGet [("NEW", "2")] k = some v → EnvVar.mk k (some v) ∈ mc'.env.getD [])) :=
  ⟨⟨rfl, by decide, rfl⟩,
    C6_env_update_merges "box" stsC6 [("NEW", "2")] mcC6 csC6 rfl (by decide) rfl⟩

/-- The env array the write branch submits for the main container (lines 479-489). -/
def mergedEnvArray (mc : Container) (req : List (String × String)) : List EnvVar :=
  toEnvArray (recMerge (currentEnvMapOf (mc.env.getD [])) req)

/-- The container list the write branch submits (lines 492-501). -/
def updatedContainers (name : String) (ps : PodSpec) (mc : Container)
    (req : List (String × String)) : List Container :=
  ps.containers.map (fun c =>
    if c.name = name then { c with env := some (mergedEnvArray mc req) } else c)

/-- The workload object the write branch submits (lines 503-526), which becomes the
cluster state after the full replace. -/
def updatedState (name : String) (sts : StatefulSet) (sp : StatefulSetSpec) (ps : PodSpec)
    (mc : Container) (req : List (String × String)) : StatefulSet :=
  { sts with
    spec := some { sp with
      template := { sp.template with
        spec := some { ps with containers := updatedContainers name ps mc req } } } }

/-- Claim C7 (amended): when every requested key already has the requested value on
the main container, `updateStatefulSetEnvVars` returns true without invoking the
replace operation; hence - provided every requested key is a nonempty string, i.e. a
well-formed environment-variable name - calling it twice with the same map returns
true both times and the second call leaves the state untouched and issues no write.
(The key uniqueness hypothesis only restates that the request is a JavaScript record.) -/
theorem C7_second_call_no_write (name : String) (sts : StatefulSet)
    (req : List (String × String)) (mc : Container)
    (hmc : mainContainerOf name sts = some mc)
    (hnd : (recKeys req).Nodup)
    (hne : ∀ kv ∈ req, kv.fst ≠ "") :
    ((∀ kv ∈ req, recGet (currentEnvMapOf (mc.env.getD [])) kv.fst = some kv.snd) →
      applyEnvUpdate name sts req = (sts, UpdateOutcome.returned true none)) ∧
    (∃ w, (applyEnvUpdate name sts req).2 = UpdateOutcome.returned true w) ∧
    applyEnvUpdate name (applyEnvUpdate name sts req).1 req =
      ((applyEnvUpdate name sts req).1, UpdateOutcome.returned true none) := by
  obtain ⟨ps, hps0, hfind⟩ := Option.bind_eq_some.mp hmc
  obtain ⟨sp, hsp, hps⟩ := Option.bind_eq_some.mp hps0
  by_cases hch : hasChanges (currentEnvMapOf (mc.env.getD [])) req = true
  · have hcurinv := currentEnvMapOf_inv (mc.env.getD [])
    have hminv := recMerge_inv (currentEnvMapOf (mc.env.getD [])) req hcurinv.1 hcurinv.2 hne
    have hround : currentEnvMapOf (mergedEnvArray mc req) =
        recMerge (currentEnvMapOf (mc.env.getD [])) req :=
      currentEnvMapOf_toEnvArray _ hminv.1 hminv.2
    have hnochange : hasChanges (recMerge (currentEnvMapOf (mc.env.getD [])) req) req = false := by
      rw [hasChanges_eq_false_iff]
      intro kv hkv
      exact recGet_recMerge_mem _ _ _ _ hnd (by simpa using hkv)
    have happ : applyEnvUpdate name sts req =
        (updatedState name sts sp ps mc req,
          UpdateOutcome.returned true (some (updatedContainers name ps mc req))) := by
      simp only [applyEnvUpdate, hsp, hps, hfind]
      rw [if_pos hch]
      rfl
    refine ⟨?_, ⟨some (updatedContainers name ps mc req), by rw [happ]⟩, ?_⟩
    · intro hall
      rw [(hasChanges_eq_false_iff _ _).mpr hall] at hch
      exact absurd hch (by simp)
    · rw [happ]
      show applyEnvUpdate name (updatedState name sts sp ps mc req) req = _
      simp only [applyEnvUpdate, updatedState, updatedContainers]
      rw [findContainer_update _ _ _ _ hfind]
      simp only [Option.getD_some]
      rw [show currentEnvMapOf (mergedEnvArray mc req) =
        recMerge (currentEnvMapOf (mc.env.getD [])) req from hround]
      rw [if_neg (by rw [hnochange]; exact Bool.false_ne_true)]
  · have happ : applyEnvUpdate name sts req = (sts, UpdateOutcome.returned true none) := by
      simp only [applyEnvUpdate, hsp, hps, hfind]
      rw [if_neg hch]
    refine ⟨fun _ => happ, ⟨none, by rw [happ]⟩, ?_⟩
    rw [happ]
    exact happ

/-- Concrete main container for the C7 instance. -/
def mcC7 : Container := { name := "box", env := some [{ name := "A", value := some "1" }] }

/-- Concrete StatefulSet for the C7 instance. -/
def stsC7 : StatefulSet :=
  { spec := some { replicas := some 1, template := { spec := some { containers := [mcC7] } } }
    status := none }

/-- Closed instance of `C7_second_call_no_write` at the request `{B: "2"}`. -/
theorem C7_second_call_no_write_witness :
    (mainContainerOf "box" stsC7 = some mcC7 ∧ (recKeys [("B", "2")]).Nodup ∧
      (∀ kv ∈ [("B", "2")], kv.fst ≠ "")) ∧
    (((∀ kv ∈ [("B", "2")], recGet (currentEnvMapOf (mcC7.env.getD [])) kv.fst = some kv.snd) →
        applyEnvUpdate "box" stsC7 [("B", "2")] = (stsC7, UpdateOutcome.returned true none)) ∧
      (∃ w, (applyEnvUpdate "box" stsC7 [("B", "2")]).2 = UpdateOutcome.returned true w) ∧
      applyEnvUpdate "box" (applyEnvUpdate "box" stsC7 [("B", "2")]).1 [("B", "2")] =
        ((applyEnvUpdate "box" stsC7 [("B", "2")]).1, UpdateOutcome.returned true none)) :=
  ⟨⟨rfl, by decide, by decide⟩,
    C7_second_call_no_write "box" stsC7 [("B", "2")] mcC7 rfl (by decide) (by decide)⟩

/-- Concrete state for the C7 counterexample: main container with an empty env array. -/
def stsC7x : StatefulSet :=
  { spec := some
      { replicas := some 1
        template := { spec := some { containers := [{ name := "box", env := some [] }] } } }
    status := none }

/-- Counterexample to claim C7 as stated: with the request `{"": "x"}` (an empty key,
which the env-map rebuild skips as falsy) the second call with the same map still
invokes the replace operation - the submitted env entry named `""` is never seen by
the change check, so every call detects a difference and writes again. -/
theorem C7_counterexample :
    (applyEnvUpdate "box" (applyEnvUpdate "box" stsC7x [("", "x")]).1 [("", "x")]).2 =
      UpdateOutcome.returned true
        (some [{ name := "box", env := some [{ name := "", value := some "x" }] }]) ∧
    (applyEnvUpdate "box" (applyEnvUpdate "box" stsC7x [("", "x")]).1 [("", "x")]).2 ≠
      UpdateOutcome.returned true none :=
  ⟨rfl, by decide⟩

/-- Concrete pod spec for the C10 instance: no container named `box`. -/
def psC10 : PodSpec := { containers := [{ name := "other", env := none }] }

/-- Concrete StatefulSet spec for the C10 instance. -/
def spC10 : StatefulSetSpec := { replicas := some 1, template := { spec := some psC10 } }

/-- Concrete StatefulSet for the C10 instance. -/
def stsC10 : StatefulSet := { spec := some spC10, status := none }

/-- Claim C10: when the StatefulSet exists but its pod template has no container whose
name equals the sandbox name, `updateStatefulSetEnvVars` returns false without
submitting any write and without changing the state - the same result as when the
StatefulSet is absent. -/
theorem C10_missing_main_container (name : String) (sts : StatefulSet)
    (sp : StatefulSetSpec) (ps : PodSpec) (req : List (String × String))
    (hsp : sts.spec = some sp) (hps : sp.template.spec = some ps)
    (hfind : findContainer name ps.containers = none) :
    applyEnvUpdate name sts req = (sts, UpdateOutcome.returned false none) ∧
    updateStatefulSetEnvVars name (some sts) req = UpdateOutcome.returned false none ∧
    updateStatefulSetEnvVars name (some sts) req = updateStatefulSetEnvVars name none req := by
  have happ : applyEnvUpdate name sts req = (sts, UpdateOutcome.returned false none) := by
    simp only [applyEnvUpdate, hsp, hps, hfind]
  exact ⟨happ, by simp [updateStatefulSetEnvVars, happ], by simp [updateStatefulSetEnvVars, happ]⟩

/-- Closed instance of `C10_missing_main_container`: a workload whose only container
is named `other`, updated under the sandbox name `box`. -/
theorem C10_missing_main_container_witness :
    (stsC10.spec = some spC10 ∧ spC10.template.spec = some psC10 ∧
      findContainer "box" psC10.containers = none) ∧
    (applyEnvUpdate "box" stsC10 [("A", "1")] = (stsC10, UpdateOutcome.returned false none) ∧
      updateStatefulSetEnvVars "box" (some stsC10) [("A", "1")] =
        UpdateOutcome.returned false none ∧
      updateStatefulSetEnvVars "box" (some stsC10) [("A", "1")] =
        updateStatefulSetEnvVars "box" none [("A", "1")]) :=
  ⟨⟨rfl, rfl, rfl⟩,
    C10_missing_main_container "box" stsC10 spC10 psC10 [("A", "1")] rfl rfl rfl⟩

/-! ### createSandbox result (lines 98-150) -/

/-- `getServiceName` (lines 542-544). -/
def getServiceName (sandboxName : String) : String := sandboxName ++ "-service"

/-- The base64 alphabet used by `Buffer.toString('base64')`. -/
def base64Table : List Char :=
  "ABCDEFGHIJKLMNOPQRSTUVWXYZabcdefghijklmnopqrstuvwxyz0123456789+/".toList

/-- One 6-bit group to its base64 character. -/
def base64Digit (n : Nat) : Char := base64Table.getD n '='

/-- Base64 of a byte-value list, three bytes to four characters, with padding. -/
def base64Chunks : List Nat → List Char
  | [] => []
  | [a] => [base64Digit (a / 4), base64Digit (a % 4 * 16), '=', '=']
  | [a, b] =>
    [base64Digit (a / 4), base64Digit (a % 4 * 16 + b / 16), base64Digit (b % 16 * 4), '=']
  | a :: b :: c :: rest =>
    base64Digit (a / 4) :: base64Digit (a % 4 * 16 + b / 16) ::
      base64Digit (b % 16 * 4 + c / 64) :: base64Digit (c % 64) :: base64Chunks rest

/-- UTF-8 byte values of one character. -/
def utf8Bytes (c : Char) : List Nat :=
  let n := c.toNat
  if n < 128 then [n]
  else if n < 2048 then [192 + n / 64, 128 + n % 64]
  else if n < 65536 then [224 + n / 4096, 128 + n / 64 % 64, 128 + n % 64]
  else [240 + n / 262144, 128 + n / 4096 % 64, 128 + n / 64 % 64, 128 + n % 64]

/-- `Buffer.from(s).toString('base64')` (line 136): base64 of the UTF-8 bytes. -/
def bufferBase64 (s : String) : String :=
  String.mk (base64Chunks ((s.toList.map utf8Bytes).flatten))

/-- `SandboxInfo` interface from the source. -/
structure SandboxInfo where
  statefulSetName : String
  serviceName : String
  publicUrl : String
  ttydUrl : String
  fileBrowserUrl : String
deriving DecidableEq, Repr

/-- The result-building tail of `createSandbox` (lines 128-149): the returned
`SandboxInfo` as a function of the sandbox name, the ingress domain and the caller's
env-var record. The ttyd URL carries `?authorization=base64("user:" + token)` only
when `envVars['TTYD_ACCESS_TOKEN']` is truthy (present and nonempty). -/
def createSandboxInfo (sandboxName ingressDomain : String)
    (envVars : List (String × String)) : SandboxInfo :=
  let baseTtydUrl := "https://" ++ sandboxName ++ "-ttyd." ++ ingressDomain
  let ttydUrl :=
    match recGet envVars "TTYD_ACCESS_TOKEN" with
    | some tok =>
      if tok = "" then baseTtydUrl
      else baseTtydUrl ++ "?authorization=" ++ bufferBase64 ("user:" ++ tok)
    | none => baseTtydUrl
  { statefulSetName := sandboxName
    serviceName := getServiceName sandboxName
    publicUrl := "https://" ++ sandboxName ++ "-app." ++ ingressDomain
    ttydUrl := ttydUrl
    fileBrowserUrl := "https://" ++ sandboxName ++ "-filebrowser." ++ ingressDomain }

/-- Counterexample to claim C8 as stated: with `TTYD_ACCESS_TOKEN` present but equal
to the empty string, `envVars` contains the key yet no `?authorization=` query is
appended (the source tests JavaScript truthiness, not key presence). -/
theorem C8_counterexample :
    recGet [("TTYD_ACCESS_TOKEN", "")] "TTYD_ACCESS_TOKEN" = some "" ∧
    (createSandboxInfo "acme-x1" "usw.example.io" [("TTYD_ACCESS_TOKEN", "")]).ttydUrl =
      "https://acme-x1-ttyd.usw.example.io" :=
  ⟨rfl, rfl⟩

/-- Claim C8 (amended): `createSandbox` returns serviceName `<name>-service`,
publicUrl `https://<name>-app.<domain>`, fileBrowserUrl
`https://<name>-filebrowser.<domain>`, and ttydUrl `https://<name>-ttyd.<domain>`
with `?authorization=base64("user:" + token)` appended exactly when envVars contains
`TTYD_ACCESS_TOKEN` with a nonempty value; name `acme-x1` and domain `usw.example.io`
give publicUrl `https://acme-x1-app.usw.example.io` and serviceName `acme-x1-service`. -/
theorem C8_sandbox_info (sandboxName ingressDomain : String)
    (envVars : List (String × String)) :
    (createSandboxInfo sandboxName ingressDomain envVars).statefulSetName = sandboxName ∧
    (createSandboxInfo sandboxName ingressDomain envVars).serviceName =
      sandboxName ++ "-service" ∧
    (createSandboxInfo sandboxName ingressDomain envVars).publicUrl =
      "https://" ++ sandboxName ++ "-app." ++ ingressDomain ∧
    (createSandboxInfo sandboxName ingressDomain envVars).fileBrowserUrl =
      "https://" ++ sandboxName ++ "-filebrowser." ++ ingressDomain ∧
    (∀ tok, recGet envVars "TTYD_ACCESS_TOKEN" = some tok → tok ≠ "" →
      (createSandboxInfo sandboxName ingressDomain envVars).ttydUrl =
        "https://" ++ sandboxName ++ "-ttyd." ++ ingressDomain ++ "?authorization=" ++
          bufferBase64 ("user:" ++ tok)) ∧
    (recGet envVars "TTYD_ACCESS_TOKEN" = none →
      (createSandboxInfo sandboxName ingressDomain envVars).ttydUrl =
        "https://" ++ sandboxName ++ "-ttyd." ++ ingressDomain) ∧
    (recGet envVars "TTYD_ACCESS_TOKEN" = some "" →
      (createSandboxInfo sandboxName ingressDomain envVars).ttydUrl =
        "https://" ++ sandboxName ++ "-ttyd." ++ ingressDomain) ∧
    (createSandboxInfo "acme-x1" "usw.example.io" []).publicUrl =
      "https://acme-x1-app.usw.example.io" ∧
    (createSandboxInfo "acme-x1" "usw.example.io" []).serviceName = "acme-x1-service" := by
  refine ⟨rfl, rfl, rfl, rfl, ?_, ?_, ?_, rfl, rfl⟩
  · intro tok htok hne
    simp only [createSandboxInfo, htok]
    rw [if_neg hne]
  · intro h
    simp only [createSandboxInfo, h]
  · intro h
    simp [createSandboxInfo, h]

/-- Closed instance of `C8_sandbox_info`: a nonempty token `tok` produces the
authorization query with the expected base64 of `user:tok`. -/
theorem C8_sandbox_info_witness :
    recGet [("TTYD_ACCESS_TOKEN", "tok")] "TTYD_ACCESS_TOKEN" = some "tok" ∧
    (createSandboxInfo "acme-x1" "usw.example.io" [("TTYD_ACCESS_TOKEN", "tok")]).ttydUrl =
      "https://" ++ "acme-x1" ++ "-ttyd." ++ "usw.example.io" ++ "?authorization=" ++
        bufferBase64 ("user:" ++ "tok") ∧
    bufferBase64 "user:tok" = "dXNlcjp0b2s=" :=
  ⟨rfl,
    (C8_sandbox_info "acme-x1" "usw.example.io" [("TTYD_ACCESS_TOKEN", "tok")]).2.2.2.2.1
      "tok" rfl (by decide),
    rfl⟩

/-! ### execCommandInBackground (lines 1435-1507) -/

/-- JavaScript `String.prototype.trim`. -/
def jsTrim (s : String) : String :=
  String.mk (((s.toList.dropWhile Char.isWhitespace).reverse.dropWhile
    Char.isWhitespace).reverse)

/-- JavaScript `parseInt(s, 10)`: skip leading whitespace, take an optional sign and
the longest leading digit run; `NaN` (here `none`) when that run is empty. -/
def parseInt10 (s : String) : Option Int :=
  let cs := s.toList.dropWhile Char.isWhitespace
  let signed : Bool × List Char :=
    match cs with
    | '-' :: rest => (true, rest)
    | '+' :: rest => (false, rest)
    | rest => (false, rest)
  let digits := signed.snd.takeWhile Char.isDigit
  if digits.isEmpty then none
  else
    let n : Nat := digits.foldl (fun acc c => acc * 10 + (c.toNat - 48)) 0
    some (if signed.fst then -(n : Int) else (n : Int))

/-- What the exec channel reported: whether the status callback said `Success`, the
accumulated stdout, and the failure message (`status.message || errorOutput`). -/
structure ExecOutcome where
  succeeded : Bool
  stdout : String
  failureMessage : String
deriving DecidableEq, Repr

/-- The result type of `execCommandInBackground`. -/
structure BgExecResult where
  success : Bool
  pid : Option Int
  error : Option String
deriving DecidableEq, Repr

/-- `execCommandInBackground` (lines 1435-1507) as a function of the exec channel's
outcome: a rejected channel is caught and returned as a failure result, a successful
channel has `parseInt(output.trim(), 10)` applied to its stdout, and a non-numeric
output is reported as a PID parse failure - nothing is rethrown. -/
def execCommandInBackground (r : ExecOutcome) : BgExecResult :=
  if r.succeeded then
    match parseInt10 (jsTrim r.stdout) with
    | none =>
      { success := false, pid := none
        error := some ("Failed to parse PID from output: " ++ r.stdout) }
    | some pid => { success := true, pid := some pid, error := none }
  else
    { success := false, pid := none
      error := some ("Command failed: " ++ r.failureMessage) }

/-- Claim C9: `execCommandInBackground` never throws: success of the returned value
requires both channel success and a parseable PID; channel success with unparseable
stdout yields `success: false` with an error naming the PID parse failure; a parsed
PID yields `success: true` with that pid; a channel failure is returned as
`success: false` with the failure message. -/
theorem C9_exec_background (r : ExecOutcome) :
    ((execCommandInBackground r).success = true ↔
      r.succeeded = true ∧ (parseInt10 (jsTrim r.stdout)).isSome) ∧
    (r.succeeded = true → parseInt10 (jsTrim r.stdout) = none →
      execCommandInBackground r =
        { success := false, pid := none
          error := some ("Failed to parse PID from output: " ++ r.stdout) }) ∧
    (∀ p, r.succeeded = true → parseInt10 (jsTrim r.stdout) = some p →
      execCommandInBackground r = { success := true, pid := some p, error := none }) ∧
    (r.succeeded = false →
      execCommandInBackground r =
        { success := false, pid := none
          error := some ("Command failed: " ++ r.failureMessage) }) := by
  by_cases hs : r.succeeded = true
  · cases hp : parseInt10 (jsTrim r.stdout) with
    | none =>
      refine ⟨?_, ?_, ?_, ?_⟩ <;> simp [execCommandInBackground, hs, hp]
    | some p =>
      refine ⟨?_, ?_, ?_, ?_⟩ <;> simp [execCommandInBackground, hs, hp]
  · have hs' : r.succeeded = false := by
      cases h : r.succeeded
      · rfl
      · exact absurd h hs
    refine ⟨?_, ?_, ?_, ?_⟩ <;> simp [execCommandInBackground, hs']

/-- Closed instances of `C9_exec_background`: a non-numeric echo is a parse failure,
a numeric echo is a success with that PID, a failed channel is a returned error. -/
theorem C9_exec_background_witness :
    execCommandInBackground { succeeded := true, stdout := "not-a-pid", failureMessage := "" } =
      { success := false, pid := none
        error := some "Failed to parse PID from output: not-a-pid" } ∧
    execCommandInBackground { succeeded := true, stdout := " 4242\n", failureMessage := "" } =
      { success := true, pid := some 4242, error := none } ∧
    execCommandInBackground { succeeded := false, stdout := "", failureMessage := "boom" } =
      { success := false, pid := none, error := some "Command failed: boom" } :=
  ⟨(C9_exec_background { succeeded := true, stdout := "not-a-pid", failureMessage := "" }).2.1
      rfl (by decide),
    (C9_exec_background { succeeded := true, stdout := " 4242\n", failureMessage := "" }).2.2.1
      4242 rfl (by decide),
    (C9_exec_background { succeeded := false, stdout := "", failureMessage := "boom" }).2.2.2
      rfl⟩

end Fulling
